import Mathlib

/-!
# CursoForm: a shallow embedding of the course editor component

Source: `src/routed/CursoForm.js`.

The component keeps one aggregate `state` (React `useState`) and reacts to
events through handlers that close over the `state` of the render in which
they were created.  Each handler is embedded as a function of that rendered
state which records, in order, the effects it performs: the objects handed
to `setState`, the requests handed to `api`, and the paths handed to
`navigate`.  `setState` with an object replaces the whole aggregate, so the
state after a handler has finished is the last object it handed to
`setState`.

JavaScript objects are modelled as ordered finite maps of their own
enumerable string-keyed data properties (the accessor key `__proto__` and
symbol keys are outside the model).  `console.log` is not modelled.
-/

namespace CursoForm

/-! ## JavaScript values -/

/-- JavaScript values as far as the component handles them; numbers are
integers (the component does no arithmetic). -/
inductive Val where
  | undefined : Val
  | null : Val
  | bool (b : Bool) : Val
  | num (n : Int) : Val
  | str (s : String) : Val
  | obj (props : List (String × Val)) : Val

/-- The own enumerable properties of a plain object, in insertion order. -/
abbrev Record := List (String × Val)

/-- ToBoolean. -/
def truthy : Val → Bool
  | .undefined => false
  | .null => false
  | .bool b => b
  | .num n => n != 0
  | .str s => s != ""
  | .obj _ => true

/-- ToString, as used by `+` with a string, by template literals and by
computed property keys. -/
def toStr : Val → String
  | .undefined => "undefined"
  | .null => "null"
  | .bool b => if b then "true" else "false"
  | .num n => toString n
  | .str s => s
  | .obj _ => "[object Object]"

/-- The comparison `v === lit` against a string literal. -/
def strictEqStr : Val → String → Bool
  | .str s, lit => s == lit
  | _, _ => false

/-- The lookup `o[k]` on a plain object: `none` when `k` is not a property. -/
def getOwn : Record → String → Option Val
  | [], _ => none
  | (k, v) :: rest, key => if k = key then some v else getOwn rest key

/-- The assignment `o[k] = v` on a plain object: an existing property keeps
its place, a new one is added last. -/
def setProp : Record → String → Val → Record
  | [], key, v => [(key, v)]
  | (k, w) :: rest, key, v =>
      if k = key then (k, v) :: rest else (k, w) :: setProp rest key v

/-- The value thrown by a property read on `undefined` or `null`. -/
def typeError (key : String) : Val :=
  .obj [("name", .str "TypeError"),
        ("message", .str ("Cannot read properties of undefined (reading " ++ key ++ ")"))]

/-- The read `v.key` for the keys the component reads (`target`, `id`,
`value`, `message`): it throws on `undefined` and `null`, finds nothing on
the other primitives, and looks the key up on an object. -/
def getProp : Val → String → Except Val Val
  | .undefined, key => .error (typeError key)
  | .null, key => .error (typeError key)
  | .obj props, key => .ok ((getOwn props key).getD .undefined)
  | _, _ => .ok .undefined

/-- The read `event.target.key`. -/
def targetProp (event : Val) (key : String) : Except Val Val :=
  match getProp event "target" with
  | .ok target => getProp target key
  | .error t => .error t

/-! ## The view state -/

/-- The aggregate kept in `React.useState`. -/
structure ViewState where
  curso : Record
  alertSeverity : String
  isAlertOpen : Bool
  alertMessage : String
  isModalProgressOpen : Bool
  pageTitle : String
  isDialogOpen : Bool

/-- The lazy initializer of `React.useState`. -/
def initialState : ViewState :=
  { curso := [("sigla", .str ""), ("descricao", .str ""), ("duracao_meses", .str ""),
              ("carga_horaria", .str ""), ("valor_total", .str "")]
    alertSeverity := "success"
    isAlertOpen := false
    alertMessage := ""
    isModalProgressOpen := false
    pageTitle := "Cadastrar novo curso"
    isDialogOpen := false }

/-- The object returned by `useParams`: `id` is `none` when the route has no
parameter. -/
structure Params where
  id : Option String

/-- The conversion of `params.id` to a string in a template literal or a
string concatenation. -/
def paramStr : Option String → String
  | none => "undefined"
  | some s => s

/-- The test `if (params.id)`. -/
def paramTruthy : Option String → Bool
  | none => false
  | some s => s != ""

/-! ## Effects -/

/-- The verbs of the `api` client the component uses. -/
inductive Method where
  | get : Method
  | post : Method
  | put : Method
deriving DecidableEq, Repr

/-- One request handed to the `api` client. -/
structure ApiCall where
  method : Method
  path : String
  body : Option Record

/-- The backend as seen by the component: a request either resolves with a
response whose `data` is a record, or rejects with a thrown value. -/
abbrev Api := ApiCall → Except Val Record

/-- What a handler has done so far, each list in the order of the calls. -/
structure Effects where
  sets : List ViewState
  calls : List ApiCall
  navs : List String
  prevented : Nat

/-- No effect yet. -/
def Effects.none : Effects := { sets := [], calls := [], navs := [], prevented := 0 }

/-- A handler body: it extends the effects and either returns or throws.
The effects performed before a throw remain. -/
def Handler (α : Type) : Type := Effects → Except Val α × Effects

/-- Return. -/
def Handler.pure {α : Type} (a : α) : Handler α := fun e => (.ok a, e)

/-- Sequencing: a throw skips the rest. -/
def Handler.bind {α β : Type} (m : Handler α) (f : α → Handler β) : Handler β :=
  fun e =>
    match m e with
    | (.ok a, e1) => f a e1
    | (.error t, e1) => (.error t, e1)

instance : Monad Handler where
  pure := Handler.pure
  bind := Handler.bind

/-- The statement `try { body } catch (erro) { handler erro }`. -/
def tryCatch {α : Type} (body : Handler α) (handler : Val → Handler α) : Handler α :=
  fun e =>
    match body e with
    | (.ok a, e1) => (.ok a, e1)
    | (.error t, e1) => handler t e1

/-- Lift a pure computation that may throw. -/
def liftExcept {α : Type} : Except Val α → Handler α
  | .ok a => Handler.pure a
  | .error t => fun e => (.error t, e)

/-- The call `setState(s)`. -/
def setState (s : ViewState) : Handler Unit :=
  fun e => (.ok (), { e with sets := e.sets ++ [s] })

/-- The call `navigate(path)`. -/
def navigate (path : String) : Handler Unit :=
  fun e => (.ok (), { e with navs := e.navs ++ [path] })

/-- The call `event.preventDefault()`. -/
def preventDefault : Handler Unit :=
  fun e => (.ok (), { e with prevented := e.prevented + 1 })

/-- An awaited request: it is recorded, then resolves or throws as the
backend decides. -/
def request (api : Api) (c : ApiCall) : Handler Record :=
  fun e =>
    let e1 := { e with calls := e.calls ++ [c] }
    match api c with
    | .ok data => (.ok data, e1)
    | .error t => (.error t, e1)

/-- The effects of a handler that called `setState` once and did nothing else. -/
def onlySet (s : ViewState) : Effects := { Effects.none with sets := [s] }

/-- Run a handler from no effects. -/
def Handler.run {α : Type} (m : Handler α) : Except Val α × Effects := m Effects.none

/-- The state shown once the handler has finished: the last object handed to
`setState`, or the rendered state when there was none. -/
def finalState (s : ViewState) (e : Effects) : ViewState := e.sets.getLast?.getD s

/-! ## The handlers -/

/-- The function `fetchData`. -/
def fetchData (api : Api) (params : Params) (state : ViewState) : Handler Unit :=
  tryCatch
    (do
      let data ← request api { method := .get, path := "cursos/" ++ paramStr params.id, body := none }
      setState { state with curso := data, pageTitle := "Editando curso id. " ++ paramStr params.id })
    (fun erro => do
      let message ← liftExcept (getProp erro "message")
      setState { state with
        alertSeverity := "error"
        alertMessage := "ERRO: " ++ toStr message
        isAlertOpen := true
        pageTitle := "## ERRO ##" })

/-- The effect passed to `React.useLayoutEffect`, run once on mount. -/
def mountEffect (api : Api) (params : Params) (state : ViewState) : Handler Unit :=
  if paramTruthy params.id then fetchData api params state else Handler.pure ()

/-- The function `handleInputChange(event, fieldName = event.target.id)`;
a `fieldName` argument that is `undefined` takes the default. -/
def handleInputChange (state : ViewState) (event : Val) (fieldNameArg : Val) : Handler Unit := do
  let fieldName ←
    (match fieldNameArg with
     | .undefined => liftExcept (targetProp event "id")
     | v => Handler.pure v)
  let newCurso := state.curso
  let newCurso ←
    (if strictEqStr fieldName "duracao_meses" then
       Handler.pure (setProp newCurso (toStr fieldName) event)
     else do
       let value ← liftExcept (targetProp event "value")
       Handler.pure (setProp newCurso (toStr fieldName) value))
  setState { state with curso := newCurso }

/-- The function `handleAlertClose(event, reason)`. -/
def handleAlertClose (state : ViewState) (reason : Val) : Handler Unit :=
  if strictEqStr reason "clickaway" then
    Handler.pure ()
  else do
    setState { state with isAlertOpen := false, isModalProgressOpen := false }
    if state.alertSeverity = "success" then navigate "/curso" else Handler.pure ()

/-- The function `saveData`. -/
def saveData (api : Api) (params : Params) (state : ViewState) : Handler Unit := do
  setState { state with isModalProgressOpen := true }
  tryCatch
    (do
      if truthy ((getOwn state.curso "id").getD .undefined) then
        let _ ← request api
          { method := .put, path := "cursos/" ++ paramStr params.id, body := some state.curso }
      else
        let _ ← request api { method := .post, path := "cursos", body := some state.curso }
      setState { state with
        isAlertOpen := true
        alertSeverity := "success"
        alertMessage := "Dados salvos com sucesso" })
    (fun erro => do
      let message ← liftExcept (getProp erro "message")
      setState { state with
        isAlertOpen := true
        alertSeverity := "error"
        alertMessage := "ERRO: " ++ toStr message })

/-- The function `handleFormSubmit(event)`. -/
def handleFormSubmit (api : Api) (params : Params) (state : ViewState) : Handler Unit := do
  preventDefault
  saveData api params state

/-- The function `isFormModified`: some property of `curso` is not `''`. -/
def isFormModified (state : ViewState) : Bool :=
  state.curso.any (fun kv => !strictEqStr kv.2 "")

/-- The function `handleVoltarButtonClick`. -/
def handleVoltarButtonClick (state : ViewState) : Handler Unit :=
  if isFormModified state then setState { state with isDialogOpen := true }
  else navigate "/curso"

/-- The function `handleDialogClose(answer)`. -/
def handleDialogClose (state : ViewState) (answer : Val) : Handler Unit := do
  setState { state with isDialogOpen := false }
  if truthy answer then navigate "/curso" else Handler.pure ()

/-! ## Statement vocabulary and sample inputs -/

/-- The event a text field hands to its change handler. -/
def sampleEvent : Val :=
  .obj [("target", .obj [("id", .str "sigla"), ("value", .str "ADS")])]

/-- The request selected by the branch `if (curso.id) ... else ...` of
`saveData`. -/
def saveCall (params : Params) (state : ViewState) : ApiCall :=
  if truthy ((getOwn state.curso "id").getD .undefined) then
    { method := .put, path := "cursos/" ++ paramStr params.id, body := some state.curso }
  else
    { method := .post, path := "cursos", body := some state.curso }

/-- The request `fetchData` hands to the backend. -/
def loadCall (params : Params) : ApiCall :=
  { method := .get, path := "cursos/" ++ paramStr params.id, body := none }

/-- A backend that accepts every request and answers with an empty body. -/
def acceptAll : Api := fun _ => .ok []

/-- A loaded record whose identifier is 7. -/
def loadedState : ViewState :=
  { initialState with
    curso := [("id", .num 7), ("sigla", .str "ADS"), ("descricao", .str "Dev"),
              ("duracao_meses", .str "12"), ("carga_horaria", .str "1200"),
              ("valor_total", .str "5000")]
    pageTitle := "Editando curso id. 8" }

/-- A backend that rejects every request with a timeout. -/
def rejectAll : Api := fun _ => .error (.obj [("message", .str "timeout")])

/-- The body the backend answers for course 7. -/
def course7 : Record :=
  [("id", .num 7), ("sigla", .str "ADS"), ("descricao", .str "Dev"),
   ("duracao_meses", .str "12"), ("carga_horaria", .str "1200"), ("valor_total", .str "5000")]

/-- A backend that answers every request with course 7. -/
def serveCourse7 : Api := fun _ => .ok course7

/-- The events the rendered component reacts to after mount.  A submission
carries the behaviour of the backend at that moment. -/
inductive Event where
  | inputChange (event fieldNameArg : Val) : Event
  | alertClose (reason : Val) : Event
  | formSubmit (api : Api) : Event
  | voltarButtonClick : Event
  | dialogClose (answer : Val) : Event

/-- The handler the component has bound to each event. -/
def handle (params : Params) (state : ViewState) : Event → Handler Unit
  | .inputChange event fieldNameArg => handleInputChange state event fieldNameArg
  | .alertClose reason => handleAlertClose state reason
  | .formSubmit api => handleFormSubmit api params state
  | .voltarButtonClick => handleVoltarButtonClick state
  | .dialogClose answer => handleDialogClose state answer

/-- The state rendered after an event has been handled to its end. -/
def react (params : Params) (state : ViewState) (ev : Event) : ViewState :=
  finalState state ((handle params state ev).run).2

/-- The state rendered after a sequence of events, each handled to its end
before the next one arrives. -/
def reactAll (params : Params) (state : ViewState) (evs : List Event) : ViewState :=
  evs.foldl (react params) state

/-- Every state a handler body hands to `setState` has page title `t`,
provided the ones handed before had. -/
def KeepsTitle {α : Type} (t : String) (m : Handler α) : Prop :=
  ∀ e : Effects, (∀ x ∈ e.sets, x.pageTitle = t) → ∀ x ∈ (m e).2.sets, x.pageTitle = t

/-! ## Auxiliary facts -/

theorem getOwn_setProp (r : Record) (F G : String) (V : Val) :
    getOwn (setProp r F V) G = if F = G then some V else getOwn r G := by
  induction r with
  | nil => simp [setProp, getOwn]
  | cons kv rest ih =>
    obtain ⟨k, w⟩ := kv
    by_cases hk : k = F
    · subst hk
      by_cases hg : k = G <;> simp [setProp, getOwn, hg]
    · by_cases hg : k = G
      · subst hg
        have hne : ¬ F = k := fun h => hk h.symm
        simp [setProp, getOwn, hk, hne]
      · simp [setProp, getOwn, hk, hg, ih]

theorem strictEqStr_eq_true (v : Val) (lit : String) :
    strictEqStr v lit = true ↔ v = .str lit := by
  cases v <;> simp [strictEqStr]

/-! ## Field binding -/

theorem handleInputChange_named (s : ViewState) (event : Val) (F : String) :
    (handleInputChange s event (.str F)).run =
      if F = "duracao_meses" then
        (.ok (), onlySet { s with curso := setProp s.curso F event })
      else
        match targetProp event "value" with
        | .ok V => (.ok (), onlySet { s with curso := setProp s.curso F V })
        | .error t => (.error t, Effects.none) := by
  unfold handleInputChange Handler.run
  by_cases hF : F = "duracao_meses"
  · simp [hF, strictEqStr, bind, Handler.bind, Handler.pure, setState, onlySet, toStr, Effects.none]
  · cases h1 : targetProp event "value" <;>
      simp [hF, h1, strictEqStr, bind, Handler.bind, Handler.pure, setState, onlySet, toStr,
        Effects.none, liftExcept]

theorem handleInputChange_default (s : ViewState) (event : Val) (F : String)
    (hid : targetProp event "id" = .ok (.str F)) :
    (handleInputChange s event .undefined).run = (handleInputChange s event (.str F)).run := by
  unfold handleInputChange Handler.run
  simp [hid, liftExcept, bind, Handler.bind, Handler.pure]

/-- C1. Field binding: when the field name resolves to the string `F`
(passed as second argument, or read from `event.target.id` when that argument
is absent), `handleInputChange` returns after a single `setState` whose
object is the rendered state with only `curso` replaced, and the new `curso`
reads `V` at `F` and what the old one read everywhere else; `V` is the first
argument itself for `F = 'duracao_meses'` and `event.target.value` for every
other `F`. -/
theorem handleInputChange_binds_field (s : ViewState) (event fieldNameArg : Val) (F : String)
    (hname : fieldNameArg = .str F ∨
      (fieldNameArg = .undefined ∧ targetProp event "id" = .ok (.str F))) :
    (F = "duracao_meses" →
      (handleInputChange s event fieldNameArg).run =
        (.ok (), onlySet { s with curso := setProp s.curso F event })) ∧
    (F ≠ "duracao_meses" → ∀ V : Val, targetProp event "value" = .ok V →
      (handleInputChange s event fieldNameArg).run =
        (.ok (), onlySet { s with curso := setProp s.curso F V })) ∧
    (∀ (V : Val) (G : String),
      getOwn (setProp s.curso F V) G = if F = G then some V else getOwn s.curso G) ∧
    (∀ V : Val,
      let s1 := finalState s (onlySet { s with curso := setProp s.curso F V })
      s1.alertSeverity = s.alertSeverity ∧ s1.isAlertOpen = s.isAlertOpen ∧
      s1.alertMessage = s.alertMessage ∧ s1.isModalProgressOpen = s.isModalProgressOpen ∧
      s1.pageTitle = s.pageTitle ∧ s1.isDialogOpen = s.isDialogOpen) := by
  have hrun : (handleInputChange s event fieldNameArg).run =
      (handleInputChange s event (.str F)).run := by
    rcases hname with h | ⟨h, hid⟩
    · rw [h]
    · rw [h]; exact handleInputChange_default s event F hid
  refine ⟨?_, ?_, ?_, ?_⟩
  · intro hF
    rw [hrun, handleInputChange_named, if_pos hF]
  · intro hF V hV
    rw [hrun, handleInputChange_named, if_neg hF, hV]
  · intro V G
    exact getOwn_setProp s.curso F G V
  · intro V
    simp [finalState, onlySet, Effects.none]

theorem handleInputChange_binds_field_witness :
    (handleInputChange initialState sampleEvent .undefined).run =
      (.ok (), onlySet { initialState with curso :=
        [("sigla", .str "ADS"), ("descricao", .str ""), ("duracao_meses", .str ""),
         ("carga_horaria", .str ""), ("valor_total", .str "")] }) :=
  (handleInputChange_binds_field initialState sampleEvent .undefined "sigla"
    (Or.inr ⟨rfl, rfl⟩)).2.1 (by decide) (.str "ADS") rfl

/-! ## Alert dismissal -/

theorem handleAlertClose_run (s : ViewState) (reason : Val) (h : reason ≠ .str "clickaway") :
    (handleAlertClose s reason).run =
      (.ok (), { Effects.none with
        sets := [{ s with isAlertOpen := false, isModalProgressOpen := false }]
        navs := if s.alertSeverity = "success" then ["/curso"] else [] }) := by
  have hr : strictEqStr reason "clickaway" = false := by
    cases hb : strictEqStr reason "clickaway" with
    | false => rfl
    | true => exact absurd ((strictEqStr_eq_true reason "clickaway").1 hb) h
  unfold handleAlertClose Handler.run
  by_cases hs : s.alertSeverity = "success" <;>
    simp [hr, hs, bind, Handler.bind, Handler.pure, setState, navigate, Effects.none]

/-- C3. Alert dismissal with a reason other than `'clickaway'`:
`handleAlertClose` returns, the state it sets is the rendered state with the
alert closed and the progress indicator closed, it navigates to `'/curso'`
(once) when the severity is `'success'` and does not navigate when the
severity is `'error'`. -/
theorem handleAlertClose_dismiss (s : ViewState) (reason : Val)
    (h : reason ≠ .str "clickaway") :
    ((handleAlertClose s reason).run).1 = .ok () ∧
    ((handleAlertClose s reason).run).2.sets =
      [{ s with isAlertOpen := false, isModalProgressOpen := false }] ∧
    (finalState s ((handleAlertClose s reason).run).2).isAlertOpen = false ∧
    (finalState s ((handleAlertClose s reason).run).2).isModalProgressOpen = false ∧
    (s.alertSeverity = "success" → ((handleAlertClose s reason).run).2.navs = ["/curso"]) ∧
    (s.alertSeverity = "error" → ((handleAlertClose s reason).run).2.navs = []) := by
  rw [handleAlertClose_run s reason h]
  refine ⟨rfl, rfl, rfl, rfl, ?_, ?_⟩
  · intro hs
    simp [hs]
  · intro hs
    simp [hs]

theorem handleAlertClose_dismiss_witness :
    ((handleAlertClose { initialState with isAlertOpen := true } .undefined).run).2.navs =
      ["/curso"] :=
  (handleAlertClose_dismiss { initialState with isAlertOpen := true } .undefined
    (by intro h; cases h)).2.2.2.2.1 rfl

/-- C9. Click-away on the alert: with reason `'clickaway'`,
`handleAlertClose` returns without any `setState`, request or navigation, so
the state stays the rendered one, whatever the alert severity. -/
theorem handleAlertClose_clickaway (s : ViewState) :
    (handleAlertClose s (.str "clickaway")).run = (.ok (), Effects.none) ∧
    finalState s ((handleAlertClose s (.str "clickaway")).run).2 = s ∧
    ((handleAlertClose s (.str "clickaway")).run).2.navs = [] := by
  have hrun : (handleAlertClose s (.str "clickaway")).run = (.ok (), Effects.none) := by
    simp [handleAlertClose, Handler.run, strictEqStr, Handler.pure]
  rw [hrun]
  exact ⟨rfl, rfl, rfl⟩

/-! ## Submission -/

theorem saveData_run (api : Api) (params : Params) (s : ViewState) :
    (saveData api params s).run =
      match api (saveCall params s) with
      | .ok _ =>
        (.ok (), { Effects.none with
          sets := [{ s with isModalProgressOpen := true },
                   { s with isAlertOpen := true, alertSeverity := "success",
                            alertMessage := "Dados salvos com sucesso" }]
          calls := [saveCall params s] })
      | .error erro =>
        match getProp erro "message" with
        | .ok message =>
          (.ok (), { Effects.none with
            sets := [{ s with isModalProgressOpen := true },
                     { s with isAlertOpen := true, alertSeverity := "error",
                              alertMessage := "ERRO: " ++ toStr message }]
            calls := [saveCall params s] })
        | .error t =>
          (.error t, { Effects.none with
            sets := [{ s with isModalProgressOpen := true }]
            calls := [saveCall params s] }) := by
  unfold saveData Handler.run
  by_cases hid : truthy ((getOwn s.curso "id").getD .undefined) = true
  · have hc : saveCall params s =
        ⟨.put, "cursos/" ++ paramStr params.id, some s.curso⟩ := by simp [saveCall, hid]
    rw [hc]
    cases hapi : api ⟨.put, "cursos/" ++ paramStr params.id, some s.curso⟩ with
    | ok data =>
      simp [hid, hapi, bind, Handler.bind, Handler.pure, setState, tryCatch, request,
        Effects.none, pure]
    | error erro =>
      cases hm : getProp erro "message" <;>
        simp [hid, hapi, hm, bind, Handler.bind, Handler.pure, setState, tryCatch, request,
          Effects.none, liftExcept, pure]
  · have hc : saveCall params s = ⟨.post, "cursos", some s.curso⟩ := by simp [saveCall, hid]
    rw [hc]
    cases hapi : api ⟨.post, "cursos", some s.curso⟩ with
    | ok data =>
      simp [hid, hapi, bind, Handler.bind, Handler.pure, setState, tryCatch, request,
        Effects.none, pure]
    | error erro =>
      cases hm : getProp erro "message" <;>
        simp [hid, hapi, hm, bind, Handler.bind, Handler.pure, setState, tryCatch, request,
          Effects.none, liftExcept, pure]

theorem fetchData_run (api : Api) (params : Params) (s : ViewState) :
    (fetchData api params s).run =
      match api (loadCall params) with
      | .ok data =>
        (.ok (), { Effects.none with
          sets := [{ s with curso := data,
                            pageTitle := "Editando curso id. " ++ paramStr params.id }]
          calls := [loadCall params] })
      | .error erro =>
        match getProp erro "message" with
        | .ok message =>
          (.ok (), { Effects.none with
            sets := [{ s with alertSeverity := "error",
                              alertMessage := "ERRO: " ++ toStr message,
                              isAlertOpen := true, pageTitle := "## ERRO ##" }]
            calls := [loadCall params] })
        | .error t => (.error t, { Effects.none with calls := [loadCall params] }) := by
  unfold fetchData Handler.run
  have hc : loadCall params = ⟨.get, "cursos/" ++ paramStr params.id, none⟩ := rfl
  rw [hc]
  cases hapi : api ⟨.get, "cursos/" ++ paramStr params.id, none⟩ with
  | ok data =>
    simp [hapi, bind, Handler.bind, Handler.pure, setState, tryCatch, request, Effects.none]
  | error erro =>
    cases hm : getProp erro "message" <;>
      simp [hapi, hm, bind, Handler.bind, Handler.pure, setState, tryCatch, request,
        Effects.none, liftExcept]

/-- C2 (as amended). Submission: whatever the backend answers, `saveData`
hands it exactly one request, with `curso` as body; when `curso.id` is truthy
it is a PUT whose path is `'cursos/'` followed by the route parameter `id`
(the text `undefined` when the route has none), otherwise it is a POST to
`'cursos'`. -/
theorem saveData_single_call (api : Api) (params : Params) (s : ViewState) :
    ((saveData api params s).run).2.calls =
      [if truthy ((getOwn s.curso "id").getD .undefined) then
         { method := .put, path := "cursos/" ++ paramStr params.id, body := some s.curso }
       else
         { method := .post, path := "cursos", body := some s.curso }] := by
  rw [saveData_run]
  cases hapi : api (saveCall params s) with
  | ok data => rfl
  | error erro => cases hm : getProp erro "message" <;> simp only [hm] <;> rfl

/-- C2 (counterexample). A record whose identifier is 7, submitted under the
route parameter `'8'`, is sent to `'cursos/8'`, which is not `'cursos/'`
followed by the record identifier. -/
theorem saveData_path_not_record_id :
    getOwn loadedState.curso "id" = some (.num 7) ∧
    ((saveData acceptAll { id := some "8" } loadedState).run).2.calls.map ApiCall.path =
      ["cursos/8"] ∧
    "cursos/8" ≠ "cursos/" ++ toStr (.num 7) := by
  refine ⟨rfl, rfl, ?_⟩
  decide

/-- C4 (the code at the failing input). Starting from the initial state,
whose progress indicator is not showing, a submission that succeeds first
sets the indicator and then sets the success alert on a copy of the rendered
state, so the state after the call returns has the alert open and the
progress indicator closed. -/
theorem saveData_success_closes_progress :
    initialState.isModalProgressOpen = false ∧
    ((saveData acceptAll { id := none } initialState).run).1 = .ok () ∧
    (((saveData acceptAll { id := none } initialState).run).2.sets.map
      ViewState.isModalProgressOpen) = [true, false] ∧
    (finalState initialState
      ((saveData acceptAll { id := none } initialState).run).2).isAlertOpen = true ∧
    (finalState initialState
      ((saveData acceptAll { id := none } initialState).run).2).alertSeverity = "success" ∧
    (finalState initialState
      ((saveData acceptAll { id := none } initialState).run).2).alertMessage =
        "Dados salvos com sucesso" ∧
    (finalState initialState
      ((saveData acceptAll { id := none } initialState).run).2).isModalProgressOpen = false := by
  refine ⟨rfl, rfl, rfl, rfl, rfl, rfl, rfl⟩

/-! ## Failure reporting -/

/-- C7. Failure reporting: when the backend rejects with a value whose
`message` is the string `d`, both `fetchData` and `saveData` return normally,
and the state each leaves has `alertSeverity = 'error'`, `isAlertOpen = true`,
`alertMessage = 'ERRO: ' + d` and the record of the rendered state. -/
theorem failure_reported_alike (api : Api) (params : Params) (s : ViewState) (erro : Val)
    (d : String) (hfail : ∀ c : ApiCall, api c = .error erro)
    (hd : getProp erro "message" = .ok (.str d)) :
    ((fetchData api params s).run).1 = .ok () ∧
    ((saveData api params s).run).1 = .ok () ∧
    (finalState s ((fetchData api params s).run).2).alertSeverity = "error" ∧
    (finalState s ((saveData api params s).run).2).alertSeverity = "error" ∧
    (finalState s ((fetchData api params s).run).2).isAlertOpen = true ∧
    (finalState s ((saveData api params s).run).2).isAlertOpen = true ∧
    (finalState s ((fetchData api params s).run).2).alertMessage = "ERRO: " ++ d ∧
    (finalState s ((saveData api params s).run).2).alertMessage = "ERRO: " ++ d ∧
    (finalState s ((fetchData api params s).run).2).curso = s.curso ∧
    (finalState s ((saveData api params s).run).2).curso = s.curso := by
  rw [fetchData_run, saveData_run, hfail, hfail]
  simp [hd, finalState, Effects.none, toStr]

theorem failure_reported_alike_witness :
    (finalState loadedState
      ((fetchData rejectAll { id := some "7" } loadedState).run).2).alertMessage =
        "ERRO: " ++ "timeout" ∧
    (finalState loadedState
      ((saveData rejectAll { id := some "7" } loadedState).run).2).alertMessage =
        "ERRO: " ++ "timeout" :=
  ⟨(failure_reported_alike rejectAll { id := some "7" } loadedState
      (.obj [("message", .str "timeout")]) "timeout" (fun _ => rfl) rfl).2.2.2.2.2.2.1,
   (failure_reported_alike rejectAll { id := some "7" } loadedState
      (.obj [("message", .str "timeout")]) "timeout" (fun _ => rfl) rfl).2.2.2.2.2.2.2.1⟩

/-! ## Loading -/

/-- C8 (as amended). Successful load: when the backend answers the read of
route identifier `i` with body `b`, `fetchData` returns after one request and
one `setState` whose object is the rendered state with `curso` replaced by
`b` and `pageTitle` replaced by `'Editando curso id. '` followed by `i`; the
effect run on mount does the same for every non-empty `i`. -/
theorem fetchData_success (api : Api) (i : String) (s : ViewState) (b : Record)
    (hok : api { method := .get, path := "cursos/" ++ i, body := none } = .ok b) :
    (fetchData api { id := some i } s).run =
      (.ok (), { Effects.none with
        sets := [{ s with curso := b, pageTitle := "Editando curso id. " ++ i }]
        calls := [{ method := .get, path := "cursos/" ++ i, body := none }] }) ∧
    (finalState s ((fetchData api { id := some i } s).run).2) =
      { s with curso := b, pageTitle := "Editando curso id. " ++ i } ∧
    (i ≠ "" → (mountEffect api { id := some i } s).run = (fetchData api { id := some i } s).run) := by
  have hrun : (fetchData api { id := some i } s).run =
      (.ok (), { Effects.none with
        sets := [{ s with curso := b, pageTitle := "Editando curso id. " ++ i }]
        calls := [{ method := .get, path := "cursos/" ++ i, body := none }] }) := by
    rw [fetchData_run]
    have hc : loadCall { id := some i } = ⟨.get, "cursos/" ++ i, none⟩ := rfl
    rw [hc, hok]
    rfl
  refine ⟨hrun, ?_, ?_⟩
  · rw [hrun]
    rfl
  · intro hi
    simp [mountEffect, paramTruthy, hi]

theorem fetchData_success_witness :
    finalState initialState ((fetchData serveCourse7 { id := some "7" } initialState).run).2 =
      { initialState with curso := course7, pageTitle := "Editando curso id. " ++ "7" } :=
  (fetchData_success serveCourse7 "7" initialState course7 rfl).2.1

/-- C8 (counterexample). Loading identifier `'7'` gives the page title
`'Editando curso id. 7'`, which is not `'Editing course id. 7'`. -/
theorem fetchData_title_not_english :
    ((fetchData serveCourse7 { id := some "7" } initialState).run).1 = .ok () ∧
    (finalState initialState
      ((fetchData serveCourse7 { id := some "7" } initialState).run).2).pageTitle =
        "Editando curso id. 7" ∧
    (finalState initialState
      ((fetchData serveCourse7 { id := some "7" } initialState).run).2).pageTitle ≠
        "Editing course id. " ++ "7" := by
  refine ⟨rfl, rfl, ?_⟩
  decide

/-! ## Going back -/

theorem isFormModified_iff (s : ViewState) :
    isFormModified s = true ↔ ∃ kv ∈ s.curso, kv.2 ≠ Val.str "" := by
  unfold isFormModified
  rw [List.any_eq_true]
  constructor
  · rintro ⟨kv, hmem, hne⟩
    refine ⟨kv, hmem, ?_⟩
    intro heq
    rw [heq] at hne
    simp [strictEqStr] at hne
  · rintro ⟨kv, hmem, hne⟩
    refine ⟨kv, hmem, ?_⟩
    cases hb : strictEqStr kv.2 "" with
    | false => rfl
    | true => exact absurd ((strictEqStr_eq_true kv.2 "").1 hb) hne

theorem handleDialogClose_run (s : ViewState) (answer : Val) :
    (handleDialogClose s answer).run =
      (.ok (), { Effects.none with
        sets := [{ s with isDialogOpen := false }]
        navs := if truthy answer then ["/curso"] else [] }) := by
  unfold handleDialogClose Handler.run
  cases ha : truthy answer <;>
    simp [ha, bind, Handler.bind, Handler.pure, setState, navigate, Effects.none]

/-- C5. Going back with a modified record: when some property of `curso` is
not `''`, `handleVoltarButtonClick` returns after a single `setState` that
opens the dialog on the rendered state, without navigating; from the state so
set, `handleDialogClose` with a truthy answer closes the dialog and navigates
to `'/curso'`, and with a falsy answer closes the dialog and does not
navigate; the record is the same throughout. -/
theorem go_back_modified (s : ViewState) (hmod : ∃ kv ∈ s.curso, kv.2 ≠ Val.str "") :
    (handleVoltarButtonClick s).run = (.ok (), onlySet { s with isDialogOpen := true }) ∧
    (∀ answer : Val, truthy answer = true →
      (handleDialogClose { s with isDialogOpen := true } answer).run =
        (.ok (), { Effects.none with
          sets := [{ s with isDialogOpen := false }], navs := ["/curso"] })) ∧
    (∀ answer : Val, truthy answer = false →
      (handleDialogClose { s with isDialogOpen := true } answer).run =
        (.ok (), onlySet { s with isDialogOpen := false })) ∧
    (finalState s (onlySet { s with isDialogOpen := true })).curso = s.curso ∧
    (finalState s (onlySet { s with isDialogOpen := true })).isDialogOpen = true ∧
    (onlySet { s with isDialogOpen := true }).navs = [] := by
  have hm : isFormModified s = true := (isFormModified_iff s).2 hmod
  refine ⟨?_, ?_, ?_, rfl, rfl, rfl⟩
  · simp [handleVoltarButtonClick, Handler.run, hm, setState, onlySet, Effects.none]
  · intro answer ha
    rw [handleDialogClose_run, ha]
    rfl
  · intro answer ha
    rw [handleDialogClose_run, ha]
    rfl

theorem go_back_modified_witness :
    (handleVoltarButtonClick loadedState).run =
      (.ok (), onlySet { loadedState with isDialogOpen := true }) ∧
    (handleDialogClose { loadedState with isDialogOpen := true } (.bool true)).run =
      (.ok (), { Effects.none with
        sets := [{ loadedState with isDialogOpen := false }], navs := ["/curso"] }) ∧
    (handleDialogClose { loadedState with isDialogOpen := true } (.bool false)).run =
      (.ok (), onlySet { loadedState with isDialogOpen := false }) :=
  ⟨(go_back_modified loadedState
      ⟨("sigla", .str "ADS"), by simp [loadedState], by simp⟩).1,
   (go_back_modified loadedState
      ⟨("sigla", .str "ADS"), by simp [loadedState], by simp⟩).2.1 (.bool true) rfl,
   (go_back_modified loadedState
      ⟨("sigla", .str "ADS"), by simp [loadedState], by simp⟩).2.2.1 (.bool false) rfl⟩

/-- C6. Going back with a clean record: when every property of `curso` is
`''`, `handleVoltarButtonClick` returns after navigating once to `'/curso'`
and without any `setState`, so the state stays the rendered one and the dialog
is not opened; the initial state is such a state. -/
theorem go_back_clean (s : ViewState) (hclean : ∀ kv ∈ s.curso, kv.2 = Val.str "") :
    (handleVoltarButtonClick s).run = (.ok (), { Effects.none with navs := ["/curso"] }) ∧
    finalState s ((handleVoltarButtonClick s).run).2 = s ∧
    (∀ kv ∈ initialState.curso, kv.2 = Val.str "") := by
  have hm : isFormModified s = false := by
    cases hb : isFormModified s with
    | false => rfl
    | true =>
      obtain ⟨kv, hmem, hne⟩ := (isFormModified_iff s).1 hb
      exact absurd (hclean kv hmem) hne
  have hrun : (handleVoltarButtonClick s).run =
      (.ok (), { Effects.none with navs := ["/curso"] }) := by
    simp [handleVoltarButtonClick, Handler.run, hm, navigate, Effects.none]
  refine ⟨hrun, ?_, ?_⟩
  · rw [hrun]
    rfl
  · intro kv hmem
    simp [initialState] at hmem
    rcases hmem with h | h | h | h | h <;> rw [h]

theorem go_back_clean_witness :
    (handleVoltarButtonClick initialState).run =
      (.ok (), { Effects.none with navs := ["/curso"] }) ∧
    finalState initialState ((handleVoltarButtonClick initialState).run).2 = initialState :=
  ⟨(go_back_clean initialState (by simp [initialState])).1,
   (go_back_clean initialState (by simp [initialState])).2.1⟩

/-! ## The page title -/

theorem keepsTitle_pure {α : Type} (t : String) (a : α) :
    KeepsTitle t (Handler.pure a) := by
  intro e he x hx
  exact he x hx

theorem keepsTitle_bind {α β : Type} (t : String) (m : Handler α) (f : α → Handler β)
    (hm : KeepsTitle t m) (hf : ∀ a, KeepsTitle t (f a)) : KeepsTitle t (m >>= f) := by
  intro e he x hx
  change x ∈ (Handler.bind m f e).2.sets at hx
  unfold Handler.bind at hx
  have h1 := hm e he
  rcases hme : m e with ⟨r, e1⟩
  rw [hme] at hx h1
  cases r with
  | ok a => exact hf a e1 h1 x hx
  | error t1 => exact h1 x hx

theorem keepsTitle_tryCatch {α : Type} (t : String) (body : Handler α)
    (handler : Val → Handler α) (hb : KeepsTitle t body) (hh : ∀ erro, KeepsTitle t (handler erro)) :
    KeepsTitle t (tryCatch body handler) := by
  intro e he x hx
  unfold tryCatch at hx
  have h1 := hb e he
  rcases hbe : body e with ⟨r, e1⟩
  rw [hbe] at hx h1
  cases r with
  | ok a => exact h1 x hx
  | error t1 => exact hh t1 e1 h1 x hx

theorem keepsTitle_liftExcept {α : Type} (t : String) (r : Except Val α) :
    KeepsTitle t (liftExcept r) := by
  intro e he x hx
  cases r <;> exact he x hx

theorem keepsTitle_setState (t : String) (s : ViewState) (hs : s.pageTitle = t) :
    KeepsTitle t (setState s) := by
  intro e he x hx
  simp only [setState, List.mem_append, List.mem_singleton] at hx
  rcases hx with hx | hx
  · exact he x hx
  · rw [hx]; exact hs

theorem keepsTitle_navigate (t : String) (path : String) : KeepsTitle t (navigate path) := by
  intro e he x hx
  exact he x hx

theorem keepsTitle_preventDefault (t : String) : KeepsTitle t preventDefault := by
  intro e he x hx
  exact he x hx

theorem keepsTitle_request (t : String) (api : Api) (c : ApiCall) :
    KeepsTitle t (request api c) := by
  intro e he x hx
  unfold request at hx
  cases hc : api c <;> rw [hc] at hx <;> exact he x hx

theorem keepsTitle_handleInputChange (s : ViewState) (event fieldNameArg : Val) :
    KeepsTitle s.pageTitle (handleInputChange s event fieldNameArg) := by
  unfold handleInputChange
  refine keepsTitle_bind _ _ _ ?_ (fun fieldName => ?_)
  · cases fieldNameArg <;>
      first
      | exact keepsTitle_liftExcept _ _
      | exact keepsTitle_pure _ _
  · dsimp only
    refine keepsTitle_bind _ _ _ ?_ (fun newCurso => keepsTitle_setState _ _ rfl)
    split
    · exact keepsTitle_pure _ _
    · exact keepsTitle_bind _ _ _ (keepsTitle_liftExcept _ _) (fun _ => keepsTitle_pure _ _)

theorem keepsTitle_handleAlertClose (s : ViewState) (reason : Val) :
    KeepsTitle s.pageTitle (handleAlertClose s reason) := by
  unfold handleAlertClose
  split
  · exact keepsTitle_pure _ _
  · refine keepsTitle_bind _ _ _ (keepsTitle_setState _ _ rfl) (fun _ => ?_)
    split
    · exact keepsTitle_navigate _ _
    · exact keepsTitle_pure _ _

theorem keepsTitle_saveData (api : Api) (params : Params) (s : ViewState) :
    KeepsTitle s.pageTitle (saveData api params s) := by
  unfold saveData
  refine keepsTitle_bind _ _ _ (keepsTitle_setState _ _ rfl) (fun _ => ?_)
  refine keepsTitle_tryCatch _ _ _ ?_ (fun erro => ?_)
  · dsimp only
    split
    · refine keepsTitle_bind _ _ _ (keepsTitle_request _ _ _) (fun _ => ?_)
      exact keepsTitle_bind _ _ _ (keepsTitle_pure _ _) (fun _ => keepsTitle_setState _ _ rfl)
    · refine keepsTitle_bind _ _ _ (keepsTitle_request _ _ _) (fun _ => ?_)
      exact keepsTitle_bind _ _ _ (keepsTitle_pure _ _) (fun _ => keepsTitle_setState _ _ rfl)
  · exact keepsTitle_bind _ _ _ (keepsTitle_liftExcept _ _)
      (fun _ => keepsTitle_setState _ _ rfl)

theorem keepsTitle_handle (params : Params) (s : ViewState) (ev : Event) :
    KeepsTitle s.pageTitle (handle params s ev) := by
  cases ev with
  | inputChange event fieldNameArg => exact keepsTitle_handleInputChange s event fieldNameArg
  | alertClose reason => exact keepsTitle_handleAlertClose s reason
  | formSubmit api =>
    exact keepsTitle_bind _ _ _ (keepsTitle_preventDefault _)
      (fun _ => keepsTitle_saveData api params s)
  | voltarButtonClick =>
    show KeepsTitle s.pageTitle (handleVoltarButtonClick s)
    unfold handleVoltarButtonClick
    split
    · exact keepsTitle_setState _ _ rfl
    · exact keepsTitle_navigate _ _
  | dialogClose answer =>
    show KeepsTitle s.pageTitle (handleDialogClose s answer)
    unfold handleDialogClose
    refine keepsTitle_bind _ _ _ (keepsTitle_setState _ _ rfl) (fun _ => ?_)
    split
    · exact keepsTitle_navigate _ _
    · exact keepsTitle_pure _ _

theorem handle_sets_title (params : Params) (s : ViewState) (ev : Event) :
    ∀ x ∈ ((handle params s ev).run).2.sets, x.pageTitle = s.pageTitle := by
  apply keepsTitle_handle params s ev Effects.none
  intro x hx
  simp [Effects.none] at hx

theorem react_title (params : Params) (s : ViewState) (ev : Event) :
    (react params s ev).pageTitle = s.pageTitle := by
  unfold react finalState
  cases hl : ((handle params s ev).run).2.sets.getLast? with
  | none => rfl
  | some x =>
    exact handle_sets_title params s ev x (List.mem_of_getLast?_eq_some hl)

theorem reactAll_title (params : Params) (evs : List Event) (s : ViewState) :
    (reactAll params s evs).pageTitle = s.pageTitle := by
  induction evs generalizing s with
  | nil => rfl
  | cons ev rest ih =>
    have h : reactAll params s (ev :: rest) = reactAll params (react params s ev) rest := rfl
    rw [h, ih, react_title]

/-- C10. The page title is never reset by a handler: every object any event
handler (field change, alert dismissal, submission whether the backend
accepts or rejects, go-back request, dialog answer) hands to `setState` has
the page title of the rendered state, so the title survives any sequence of
events; in particular, once a failed load has set the title to `'## ERRO ##'`
it is still `'## ERRO ##'` after any sequence of later events. -/
theorem page_title_never_reset :
    (∀ (params : Params) (s : ViewState) (ev : Event),
      ∀ x ∈ ((handle params s ev).run).2.sets, x.pageTitle = s.pageTitle) ∧
    (∀ (params : Params) (s : ViewState) (evs : List Event),
      (reactAll params s evs).pageTitle = s.pageTitle) ∧
    (∀ (api : Api) (params : Params) (s : ViewState) (erro message : Val),
      api (loadCall params) = .error erro → getProp erro "message" = .ok message →
      (finalState s ((fetchData api params s).run).2).pageTitle = "## ERRO ##" ∧
      ∀ evs : List Event,
        (reactAll params (finalState s ((fetchData api params s).run).2) evs).pageTitle =
          "## ERRO ##") := by
  refine ⟨handle_sets_title, fun params s evs => reactAll_title params evs s, ?_⟩
  intro api params s erro message hfail hm
  have ht : (finalState s ((fetchData api params s).run).2).pageTitle = "## ERRO ##" := by
    rw [fetchData_run, hfail]
    simp only [hm]
    rfl
  refine ⟨ht, fun evs => ?_⟩
  rw [reactAll_title, ht]

theorem page_title_never_reset_witness :
    (reactAll { id := some "7" }
      (finalState initialState ((fetchData rejectAll { id := some "7" } initialState).run).2)
      [.alertClose .undefined, .inputChange sampleEvent .undefined, .formSubmit acceptAll,
       .alertClose .undefined, .voltarButtonClick, .dialogClose (.bool false)]).pageTitle =
      "## ERRO ##" :=
  (page_title_never_reset.2.2 rejectAll { id := some "7" } initialState
    (.obj [("message", .str "timeout")]) (.str "timeout") rfl rfl).2 _

end CursoForm
